import Mathlib

/-!
Verification of the stagetimer schedule & timer engine (src/app.py, src/database.py).

Shallow embedding conventions:
* Calendar dates (`YYYY-MM-DD` strings in the source) are modelled as integer day
  numbers; lexicographic order on ISO date strings agrees with the numeric order.
* Times of day (`HH:MM` strings) are modelled as minutes after midnight (0 .. 1439);
  again string order agrees with numeric order.
* A `datetime` value is modelled as an absolute count: minutes (`date * 1440 + time`)
  where the source works at minute granularity (conflict checking, durations), and
  seconds (`day * 86400 + secondOfDay`) for wall-clock instants handled by the timer
  loop (`now`, `end_time`).  Python's `//`-style floor division and nonnegative `%`
  match Lean's `Int.ediv` / `Int.emod`, which are what `/` and `%` denote on `Int`.
* The mutable module globals `schedule, current_band_index, timer_running, end_time,
  original_scheduled_*` are gathered into an explicit `TimerState`; socket emissions,
  history inserts and database writes become explicit output lists.
-/

/-- One schedule entry, as built by `load_schedule` / `add_band` in src/app.py:
the dict `{"date", "band", "start", "end", "end_date", "duration"}`. -/
structure Entry where
  date : Int
  band : String
  start : Int
  «end» : Int
  end_date : Int
  duration : Int
deriving DecidableEq

/-- Absolute start of an entry in minutes: `datetime.strptime(f"{date} {start}")`. -/
def absStart (e : Entry) : Int := e.date * 1440 + e.start

/-- Absolute end of an entry in minutes, resolved with the entry's own `end_date`:
`datetime.strptime(f"{end_date} {end}")`. -/
def absEnd (e : Entry) : Int := e.end_date * 1440 + e.«end»

/-- `calculate_duration_and_end_date(start_date, start_time, end_time)` from
src/app.py lines 215-244: if the parsed end is `<=` the parsed start the end is
moved one day later; returns `(duration_minutes, end_date)`. -/
def calculate_duration_and_end_date (start_date start_time end_time : Int) :
    Int × Int :=
  let start_datetime := start_date * 1440 + start_time
  let end_datetime0 := start_date * 1440 + end_time
  let end_datetime :=
    if end_datetime0 ≤ start_datetime then end_datetime0 + 1440 else end_datetime0
  (end_datetime - start_datetime, end_datetime / 1440)

/-- The pairwise overlap condition used by `load_schedule`, `upload_csv` and
`check_time_conflict`: `new_start < other_end and new_end > other_start`,
with both endpoints resolved via each entry's own `end_date`. -/
def overlaps (a b : Entry) : Bool :=
  decide (absStart a < absEnd b) && decide (absEnd a > absStart b)

/-- `check_time_conflict(start_date, start_time, end_time, duration, end_date)`
from src/app.py lines 601-623: scans `schedule` and reports the first entry whose
interval overlaps the candidate one (the `duration` argument is unused, as in the
source).  Returns `(has_conflict, conflicting_entry)`. -/
def check_time_conflict (schedule : List Entry)
    (start_date start_time end_time duration end_date : Int) :
    Bool × Option Entry :=
  let new_start := start_date * 1440 + start_time
  let new_end := end_date * 1440 + end_time
  match schedule.find? (fun band =>
      decide (new_start < absEnd band) && decide (new_end > absStart band)) with
  | some band => (true, some band)
  | none => (false, none)

example : calculate_duration_and_end_date 10 1410 30 = (60, 11) := by decide

example :
    overlaps
      ⟨10, "A", 1410, 30, 11, 60⟩
      ⟨11, "B", 0, 60, 11, 60⟩ = true := by decide

example :
    (check_time_conflict [⟨10, "A", 1080, 1140, 10, 60⟩] 10 1140 1200 60 10).1
      = false := by decide

/-- Helper: the boolean result of `check_time_conflict` is exactly the existence
of an overlapping entry in the scanned schedule (general scalar-argument form). -/
theorem check_time_conflict_fst_iff_of_args (sched : List Entry)
    (start_date start_time end_time duration end_date : Int) :
    (check_time_conflict sched start_date start_time end_time duration end_date).1
        = true
      ↔ ∃ c ∈ sched, start_date * 1440 + start_time < absEnd c
          ∧ end_date * 1440 + end_time > absStart c := by
  have hiff : (∃ c ∈ sched, start_date * 1440 + start_time < absEnd c
        ∧ end_date * 1440 + end_time > absStart c)
      ↔ (List.find? (fun band =>
          decide (start_date * 1440 + start_time < absEnd band) &&
          decide (end_date * 1440 + end_time > absStart band)) sched).isSome = true := by
    rw [List.find?_isSome]
    constructor
    · rintro ⟨c, hm, h1, h2⟩
      refine ⟨c, hm, ?_⟩
      simp only [Bool.and_eq_true, decide_eq_true_eq]
      exact ⟨h1, h2⟩
    · rintro ⟨c, hm, hp⟩
      simp only [Bool.and_eq_true, decide_eq_true_eq] at hp
      exact ⟨c, hm, hp.1, hp.2⟩
  rw [hiff]
  rcases hfind : List.find? (fun band =>
      decide (start_date * 1440 + start_time < absEnd band) &&
      decide (end_date * 1440 + end_time > absStart band)) sched with _ | c
  · simp [check_time_conflict, hfind]
  · simp [check_time_conflict, hfind]

/-- Helper: the same, with the candidate's own fields as the arguments. -/
theorem check_time_conflict_fst_iff (sched : List Entry) (a : Entry) :
    (check_time_conflict sched a.date a.start a.«end» a.duration a.end_date).1 = true
      ↔ ∃ c ∈ sched, absStart a < absEnd c ∧ absEnd a > absStart c :=
  check_time_conflict_fst_iff_of_args sched a.date a.start a.«end» a.duration a.end_date

/-- C1: `check_time_conflict` reports a conflict iff some scheduled entry's
half-open wall-clock interval `[date+start, end_date+end)` overlaps the candidate
one (`newStart < otherEnd AND newEnd > otherStart`, endpoints resolved with each
entry's own `end_date`); against a single entry the report is exactly the pairwise
overlap test, and entries that merely touch (one ends exactly when the other
starts) are not reported as conflicting. -/
theorem check_time_conflict_iff_overlap (schedule : List Entry) (a b : Entry) :
    ((check_time_conflict schedule a.date a.start a.«end» a.duration a.end_date).1 = true
      ↔ ∃ c ∈ schedule, absStart a < absEnd c ∧ absEnd a > absStart c)
    ∧ ((check_time_conflict [b] a.date a.start a.«end» a.duration a.end_date).1 = true
      ↔ (absStart a < absEnd b ∧ absEnd a > absStart b))
    ∧ (absEnd a = absStart b →
      (check_time_conflict [b] a.date a.start a.«end» a.duration a.end_date).1 = false)
    ∧ (absStart a = absEnd b →
      (check_time_conflict [b] a.date a.start a.«end» a.duration a.end_date).1 = false) := by
  have key := check_time_conflict_fst_iff
  refine ⟨key schedule a, ?_, ?_, ?_⟩
  · rw [key [b] a]
    simp
  · intro h
    rcases hres : (check_time_conflict [b] a.date a.start a.«end» a.duration a.end_date).1 with _ | _
    · rfl
    · exfalso
      rcases (key [b] a).1 hres with ⟨c, hc, h1, h2⟩
      simp only [List.mem_singleton] at hc
      subst hc
      omega
  · intro h
    rcases hres : (check_time_conflict [b] a.date a.start a.«end» a.duration a.end_date).1 with _ | _
    · rfl
    · exfalso
      rcases (key [b] a).1 hres with ⟨c, hc, h1, h2⟩
      simp only [List.mem_singleton] at hc
      subst hc
      omega

/-- Witness for C1 at a concrete schedule and candidate entry. -/
theorem check_time_conflict_iff_overlap_witness :
    (((check_time_conflict [⟨10, "B", 1380, 120, 11, 180⟩]
        (10 : Int) 1410 30 60 11).1 = true
      ↔ ∃ c ∈ [(⟨10, "B", 1380, 120, 11, 180⟩ : Entry)],
          absStart ⟨10, "A", 1410, 30, 11, 60⟩ < absEnd c
          ∧ absEnd ⟨10, "A", 1410, 30, 11, 60⟩ > absStart c)
    ∧ (((check_time_conflict [⟨10, "B", 1380, 120, 11, 180⟩]
        (10 : Int) 1410 30 60 11).1 = true)
      ↔ (absStart ⟨10, "A", 1410, 30, 11, 60⟩ < absEnd ⟨10, "B", 1380, 120, 11, 180⟩
          ∧ absEnd ⟨10, "A", 1410, 30, 11, 60⟩ > absStart ⟨10, "B", 1380, 120, 11, 180⟩))
    ∧ (absEnd ⟨10, "A", 1410, 30, 11, 60⟩ = absStart ⟨10, "B", 1380, 120, 11, 180⟩ →
      (check_time_conflict [⟨10, "B", 1380, 120, 11, 180⟩]
        (10 : Int) 1410 30 60 11).1 = false)
    ∧ (absStart ⟨10, "A", 1410, 30, 11, 60⟩ = absEnd ⟨10, "B", 1380, 120, 11, 180⟩ →
      (check_time_conflict [⟨10, "B", 1380, 120, 11, 180⟩]
        (10 : Int) 1410 30 60 11).1 = false)) :=
  check_time_conflict_iff_overlap
    [⟨10, "B", 1380, 120, 11, 180⟩] ⟨10, "A", 1410, 30, 11, 60⟩ ⟨10, "B", 1380, 120, 11, 180⟩

/-- A raw form row as submitted to the admin `save` / `add_band` actions:
`date`, `band`, `start`, `end` (duration and end date are derived from it via
`calculate_duration_and_end_date`). -/
structure SaveRow where
  date : Int
  band : String
  start : Int
  «end» : Int
deriving DecidableEq

/-- Build the schedule entry the admin actions append for a row:
`duration, end_date = calculate_duration_and_end_date(date, start, end)`. -/
def entryOfRow (r : SaveRow) : Entry :=
  let p := calculate_duration_and_end_date r.date r.start r.«end»
  { date := r.date, band := r.band, start := r.start, «end» := r.«end»,
    end_date := p.2, duration := p.1 }

/-- C4: for any start day `D`, an entry `start=23:30 (1410), end=00:30 (30)` gets
`end_date = D+1` and `duration = 60`; in general, when the parsed end time-of-day
is `≤` the start time-of-day the end date rolls to the next calendar day, the
derived duration always equals the wall-clock span from `date+start` to
`end_date+end`, and the 23:30-00:30 entry is detected as conflicting with an
entry `date=D+1, 00:00-01:00` (by the pairwise overlap condition and by
`check_time_conflict`). -/
theorem calculate_duration_and_end_date_midnight
    (D start_date start_time end_time : Int)
    (he0 : 0 ≤ end_time) (he1 : end_time < 1440) :
    (calculate_duration_and_end_date D 1410 30 = (60, D + 1))
    ∧ (end_time ≤ start_time →
        (calculate_duration_and_end_date start_date start_time end_time).2
          = start_date + 1)
    ∧ ((calculate_duration_and_end_date start_date start_time end_time).2 * 1440
        + end_time
        = start_date * 1440 + start_time
          + (calculate_duration_and_end_date start_date start_time end_time).1)
    ∧ (overlaps (entryOfRow ⟨D, "A", 1410, 30⟩) (entryOfRow ⟨D + 1, "B", 0, 60⟩)
        = true)
    ∧ ((check_time_conflict [entryOfRow ⟨D + 1, "B", 0, 60⟩]
          D 1410 30 60 (D + 1)).1 = true) := by
  have hcalc : calculate_duration_and_end_date D 1410 30 = (60, D + 1) := by
    simp only [calculate_duration_and_end_date]
    rw [if_pos (by omega)]
    simp only [Prod.mk.injEq]
    omega
  have hcalc2 : calculate_duration_and_end_date (D + 1) 0 60 = (60, D + 1) := by
    simp only [calculate_duration_and_end_date]
    rw [if_neg (by omega)]
    simp only [Prod.mk.injEq]
    omega
  refine ⟨hcalc, ?_, ?_, ?_, ?_⟩
  · intro hle
    simp only [calculate_duration_and_end_date]
    rw [if_pos (by omega)]
    omega
  · simp only [calculate_duration_and_end_date]
    by_cases hle : start_date * 1440 + end_time ≤ start_date * 1440 + start_time
    · rw [if_pos hle]
      omega
    · rw [if_neg hle]
      omega
  · simp only [overlaps, entryOfRow, hcalc, hcalc2, absStart, absEnd,
      Bool.and_eq_true, decide_eq_true_eq]
    omega
  · rw [check_time_conflict_fst_iff_of_args]
    refine ⟨entryOfRow ⟨D + 1, "B", 0, 60⟩, List.mem_singleton_self _, ?_⟩
    simp only [entryOfRow, hcalc2, absStart, absEnd]
    omega

/-- Witness for C4 at `D = 10`, `start_date = 10`, `start = 23:30`, `end = 00:30`. -/
theorem calculate_duration_and_end_date_midnight_witness :
    (calculate_duration_and_end_date 10 1410 30 = (60, 10 + 1))
    ∧ ((30 : Int) ≤ 1410 →
        (calculate_duration_and_end_date 10 1410 30).2 = 10 + 1)
    ∧ ((calculate_duration_and_end_date 10 1410 30).2 * 1440 + 30
        = 10 * 1440 + 1410 + (calculate_duration_and_end_date 10 1410 30).1)
    ∧ (overlaps (entryOfRow ⟨10, "A", 1410, 30⟩) (entryOfRow ⟨10 + 1, "B", 0, 60⟩)
        = true)
    ∧ ((check_time_conflict [entryOfRow ⟨10 + 1, "B", 0, 60⟩]
          10 1410 30 60 (10 + 1)).1 = true) :=
  calculate_duration_and_end_date_midnight 10 10 1410 30 (by decide) (by decide)

/-- The conflicts recorded for one candidate entry against the already-processed
prefix (`for other_band in temp_schedule: if overlap: conflicts_found.append(...)`
in `load_schedule` / `upload_csv`); each conflict is the pair
(new entry, earlier entry). -/
def pairConflicts (temp_schedule : List Entry) (e : Entry) : List (Entry × Entry) :=
  (temp_schedule.filter (fun other_band => overlaps e other_band)).map
    (fun other_band => (e, other_band))

/-- The full conflict scan of `load_schedule` (src/app.py lines 263-298): each
entry is checked against every entry processed before it, and all conflicting
pairs are collected in order. -/
def scanConflicts (temp_schedule : List Entry) : List Entry → List (Entry × Entry)
  | [] => []
  | e :: rest => pairConflicts temp_schedule e ++ scanConflicts (temp_schedule ++ [e]) rest

/-- `load_schedule` (src/app.py lines 251-313), the whole-schedule replacement
used at startup, on `reload` and after a CSV import: if the pairwise scan finds
any conflicts, the in-memory schedule keeps its previous contents and all the
conflicts are reported; otherwise the candidate batch becomes the schedule.
Returns `(new schedule, reported conflicts)`. -/
def load_schedule (bands_from_db : List Entry) (old_schedule : List Entry) :
    List Entry × List (Entry × Entry) :=
  let conflicts_found := scanConflicts [] bands_from_db
  if conflicts_found.isEmpty then (bands_from_db, []) else (old_schedule, conflicts_found)

/-- Comparison by the sort key `(date, start)` used by `sort_schedule` and the
admin `save` action (`key=lambda x: (x['date'], x['start'])`). -/
def keyLe (a b : Entry) : Bool :=
  decide (a.date < b.date) || (decide (a.date = b.date) && decide (a.start ≤ b.start))

/-- Stable insertion into a `(date, start)`-sorted list (a new entry goes after
existing entries with an equal key, as Python's stable sort keeps input order). -/
def insertByKey (e : Entry) : List Entry → List Entry
  | [] => [e]
  | x :: xs => if keyLe x e then x :: insertByKey e xs else e :: x :: xs

/-- Stable sort by `(date, start)`, modelling `updated_schedule.sort(...)`. -/
def sortByDateStart (l : List Entry) : List Entry :=
  l.foldl (fun acc e => insertByKey e acc) []

/-- The schedule produced by the admin `save` action (src/app.py lines 838-891):
every complete form row becomes an entry (duration and end date derived), the
batch is sorted by `(date, start)` and *replaces* the global schedule.  No
conflict check is performed on this path; the previous schedule contents are
discarded unconditionally.  (The band-logo smart-rename and the running-timer
`end_time` recomputation touch other state, not the schedule contents.) -/
def admin_save (rows : List SaveRow) (old_schedule : List Entry) : List Entry :=
  sortByDateStart (rows.map entryOfRow)

/-- Helper: a pair already recorded against the processed prefix stays in the scan. -/
theorem mem_scanConflicts_of_mem_temp (l₂ : List Entry) :
    ∀ (temp l₃ : List Entry) (a b : Entry), b ∈ temp → overlaps a b = true →
      (a, b) ∈ scanConflicts temp (l₂ ++ a :: l₃) := by
  induction l₂ with
  | nil =>
    intro temp l₃ a b hb hov
    simp only [List.nil_append, scanConflicts]
    apply List.mem_append_left
    simp only [pairConflicts, List.mem_map]
    exact ⟨b, List.mem_filter.2 ⟨hb, hov⟩, rfl⟩
  | cons c l₂' ih =>
    intro temp l₃ a b hb hov
    simp only [List.cons_append, scanConflicts]
    apply List.mem_append_right
    exact ih (temp ++ [c]) l₃ a b (List.mem_append_left _ hb) hov

/-- Helper: any overlapping pair with the second entry earlier in the batch is
reported by the scan. -/
theorem mem_scanConflicts_of_before (l₁ : List Entry) :
    ∀ (temp mid l₃ : List Entry) (a b : Entry), overlaps a b = true →
      (a, b) ∈ scanConflicts temp (l₁ ++ b :: mid ++ a :: l₃) := by
  induction l₁ with
  | nil =>
    intro temp mid l₃ a b hov
    simp only [List.nil_append, scanConflicts]
    apply List.mem_append_right
    exact mem_scanConflicts_of_mem_temp mid (temp ++ [b]) l₃ a b
      (List.mem_append_right _ (List.mem_singleton_self b)) hov
  | cons c l₁' ih =>
    intro temp mid l₃ a b hov
    simp only [List.cons_append, scanConflicts]
    apply List.mem_append_right
    exact ih (temp ++ [c]) mid l₃ a b hov

/-- C2 (amended): the validating whole-schedule replacement (`load_schedule`) is
atomic: a batch with no internal conflicts becomes the new schedule; if any two
entries of the batch overlap, the schedule keeps its pre-call contents and every
such conflicting pair (not just the first) is reported. -/
theorem load_schedule_atomic (bands old pre mid post : List Entry) (b a : Entry) :
    (scanConflicts [] bands = [] → load_schedule bands old = (bands, []))
    ∧ (bands = pre ++ b :: mid ++ a :: post → overlaps a b = true →
        (load_schedule bands old).1 = old ∧ (a, b) ∈ (load_schedule bands old).2) := by
  constructor
  · intro hclean
    simp [load_schedule, hclean]
  · intro hsplit hov
    have hmem : (a, b) ∈ scanConflicts [] bands := by
      rw [hsplit]
      exact mem_scanConflicts_of_before pre [] mid post a b hov
    have hne : (scanConflicts [] bands).isEmpty = false := by
      rcases hscan : scanConflicts [] bands with _ | ⟨p, rest⟩
      · rw [hscan] at hmem
        simp at hmem
      · rfl
    constructor
    · simp [load_schedule, hne]
    · simp only [load_schedule, hne, Bool.false_eq_true, if_false]
      exact hmem

/-- Witness for C2's amended theorem: a clean two-entry batch is adopted, and a
batch whose second entry overlaps its first keeps the old schedule and reports
the pair. -/
theorem load_schedule_atomic_witness :
    (scanConflicts [] [⟨0, "A", 600, 660, 0, 60⟩, ⟨0, "B", 630, 690, 0, 60⟩] = [] →
      load_schedule [⟨0, "A", 600, 660, 0, 60⟩, ⟨0, "B", 630, 690, 0, 60⟩]
        [⟨1, "C", 600, 660, 1, 60⟩]
        = ([⟨0, "A", 600, 660, 0, 60⟩, ⟨0, "B", 630, 690, 0, 60⟩], []))
    ∧ ([(⟨0, "A", 600, 660, 0, 60⟩ : Entry), ⟨0, "B", 630, 690, 0, 60⟩]
          = [] ++ ⟨0, "A", 600, 660, 0, 60⟩ :: [] ++ ⟨0, "B", 630, 690, 0, 60⟩ :: [] →
        overlaps ⟨0, "B", 630, 690, 0, 60⟩ ⟨0, "A", 600, 660, 0, 60⟩ = true →
        (load_schedule [⟨0, "A", 600, 660, 0, 60⟩, ⟨0, "B", 630, 690, 0, 60⟩]
            [⟨1, "C", 600, 660, 1, 60⟩]).1 = [⟨1, "C", 600, 660, 1, 60⟩]
        ∧ ((⟨0, "B", 630, 690, 0, 60⟩ : Entry), (⟨0, "A", 600, 660, 0, 60⟩ : Entry))
            ∈ (load_schedule [⟨0, "A", 600, 660, 0, 60⟩, ⟨0, "B", 630, 690, 0, 60⟩]
                [⟨1, "C", 600, 660, 1, 60⟩]).2) :=
  load_schedule_atomic
    [⟨0, "A", 600, 660, 0, 60⟩, ⟨0, "B", 630, 690, 0, 60⟩]
    [⟨1, "C", 600, 660, 1, 60⟩] [] [] []
    ⟨0, "A", 600, 660, 0, 60⟩ ⟨0, "B", 630, 690, 0, 60⟩

/-- C2 counterexample: the admin bulk-save replacement path adopts a batch with
an internal pairwise conflict (B 10:30-11:30 overlaps A 10:00-11:00) and
discards the pre-call schedule contents, with no conflict reported — so the
claim does not hold of the whole-schedule replacement exposed to the admin
`save` action. -/
theorem admin_save_adopts_conflicting_batch :
    overlaps (entryOfRow ⟨0, "B", 630, 690⟩) (entryOfRow ⟨0, "A", 600, 660⟩) = true
    ∧ admin_save [⟨0, "A", 600, 660⟩, ⟨0, "B", 630, 690⟩] [⟨1, "C", 600, 660, 1, 60⟩]
        = [entryOfRow ⟨0, "A", 600, 660⟩, entryOfRow ⟨0, "B", 630, 690⟩]
    ∧ admin_save [⟨0, "A", 600, 660⟩, ⟨0, "B", 630, 690⟩] [⟨1, "C", 600, 660, 1, 60⟩]
        ≠ [⟨1, "C", 600, 660, 1, 60⟩] := by decide

/-- The module-level playback state of src/app.py: the global `schedule` list and
the globals `current_band_index`, `timer_running`, `end_time` (an absolute
instant in seconds, `None` when no timer is armed) and the `original_scheduled_*`
snapshots taken by `start_timer` (minutes of day for start/end, minutes for the
duration). -/
structure TimerState where
  schedule : List Entry
  current_band_index : Int
  timer_running : Bool
  end_time : Option Int
  original_scheduled_start : Option Int
  original_scheduled_end : Option Int
  original_scheduled_duration : Option Int
deriving DecidableEq

/-- A row inserted into the `history` table by `db.add_to_history`
(src/database.py lines 191-203), with instants in seconds. -/
structure HistoryRecord where
  band_name : String
  scheduled_date : Int
  scheduled_start : Int
  scheduled_end : Int
  actual_start : Int
  actual_end : Int
  duration : Int
deriving DecidableEq

/-- The `next_band` payload of a `time_update` emission. -/
structure NextBandInfo where
  band : String
  start : Int
  date : Int
  countdown : Int
deriving DecidableEq

/-- Socket emissions of the timer code paths. -/
inductive Emit where
  | playing (band : String) (remaining : Int) (total_duration : Int)
      (next_band : Option NextBandInfo)
  | waiting (next_band : NextBandInfo)
  | finished
  | schedule_updated
deriving DecidableEq

/-- Python list indexing `xs[i]`, including negative indices counting from the
end; `none` models an `IndexError`. -/
def pyGet (xs : List Entry) (i : Int) : Option Entry :=
  if 0 ≤ i then xs.get? i.toNat
  else if (-i).toNat ≤ xs.length then xs.get? (xs.length - (-i).toNat) else none

/-- Python `xs.pop(i)` on the list part (the removed list), for an index that is
in range; mirrors negative indices like `pyGet`. -/
def pyEraseIdx (xs : List Entry) (i : Int) : List Entry :=
  if 0 ≤ i then xs.eraseIdx i.toNat else xs.eraseIdx (xs.length - (-i).toNat)

/-- Python item assignment `xs[i] = e` for an index that is in range. -/
def pySet (xs : List Entry) (i : Int) (e : Entry) : List Entry :=
  if 0 ≤ i then xs.set i.toNat e else xs.set (xs.length - (-i).toNat) e

/-- `now.date()` as a day number: an instant in seconds belongs to day
`now / 86400`. -/
def dayOf (now : Int) : Int := now / 86400

/-- `datetime.combine(now.date(), time)` for a minutes-of-day time, in seconds. -/
def combineToday (now minuteOfDay : Int) : Int :=
  dayOf now * 86400 + minuteOfDay * 60

/-- The "find the next band for today" scan used while a band plays
(src/app.py lines 421-433 and the copies in `start_timer` / `adjust_time`):
the first entry after position `idx` whose `date` equals `current_date`,
with its countdown relative to `now`. -/
def next_band_info (schedule : List Entry) (idx : Int) (current_date now : Int) :
    Option NextBandInfo :=
  match (schedule.drop (idx + 1).toNat).find?
      (fun b => decide (b.date = current_date)) with
  | some b => some ⟨b.band, b.start, b.date, combineToday now b.start - now⟩
  | none => none

/-- `start_timer()` (src/app.py lines 540-599).  Returns the new global state and
the emissions.  If the index is past the schedule it returns unchanged; if `now`
is before the entry's start (today's date combined with its start time) it only
clears `timer_running`/`end_time`; otherwise it snapshots the originally
scheduled values, arms `end_time = max(now, band_start) + duration` and emits a
playing update.  (`pyGet` returning `none` is an uncaught `IndexError`: state
unchanged.) -/
def start_timer (st : TimerState) (now : Int) : TimerState × List Emit :=
  if (st.schedule.length : Int) ≤ st.current_band_index then (st, [])
  else
    match pyGet st.schedule st.current_band_index with
    | none => (st, [])
    | some band =>
      let band_start := combineToday now band.start
      if now < band_start then
        ({ st with timer_running := false, end_time := none }, [])
      else
        let actual_start := max now band_start
        let new_end_time := actual_start + band.duration * 60
        ({ st with
            original_scheduled_start := some band.start,
            original_scheduled_end := some band.«end»,
            original_scheduled_duration := some band.duration,
            end_time := some new_end_time,
            timer_running := true },
         [Emit.playing band.band (new_end_time - now) (band.duration * 60)
            (next_band_info st.schedule st.current_band_index (dayOf now) now)])

/-- Result of one pass of the polling loop body: the new global state, the
history rows inserted, the schedule snapshots written to the database
(`save_schedule_to_db`) and the socket emissions, in order. -/
structure TickResult where
  state : TimerState
  history : List HistoryRecord
  persisted : List (List Entry)
  emits : List Emit
deriving DecidableEq

/-- The `if timer_running and end_time:` branch of `timer_thread`
(src/app.py lines 414-492).  While `remaining > 0` it only emits the playing
snapshot.  When the timer has elapsed it inserts a history row (scheduled values
from the activation snapshots, `actual_end = now`,
`actual_start = end_time - duration`), removes the active entry, persists the
schedule, emits `schedule_updated` and resets the playback state.  An
`IndexError` on `schedule[current_band_index]` is caught by the loop's
`try/except` before any mutation, leaving the state unchanged. -/
def tick_timer_branch (st : TimerState) (now : Int) : TickResult :=
  match st.end_time with
  | none => ⟨st, [], [], []⟩
  | some e =>
    if st.timer_running then
      let remaining := e - now
      if 0 < remaining then
        match pyGet st.schedule st.current_band_index with
        | none => ⟨st, [], [], []⟩
        | some current_band =>
          ⟨st, [], [],
           [Emit.playing current_band.band remaining (current_band.duration * 60)
              (next_band_info st.schedule st.current_band_index (dayOf now) now)]⟩
      else
        match pyGet st.schedule st.current_band_index with
        | none => ⟨st, [], [], []⟩
        | some current_band =>
          let actual_end := now
          let actual_start := e - current_band.duration * 60
          let actual_duration := (actual_end - actual_start) / 60
          let record : HistoryRecord :=
            ⟨current_band.band, current_band.date,
             st.original_scheduled_start.getD current_band.start,
             st.original_scheduled_end.getD current_band.«end»,
             actual_start, actual_end, actual_duration⟩
          let schedule' := pyEraseIdx st.schedule st.current_band_index
          ⟨{ st with
              schedule := schedule'
              timer_running := false
              end_time := none
              current_band_index := -1 },
           [record], [schedule'], [Emit.schedule_updated]⟩
    else ⟨st, [], [], []⟩

/-- The midnight-rollover handling at the top of the loop body
(src/app.py lines 394-404): when the date changed since the previous iteration,
`current_band_index` is reset to `-1` only if no timer is running. -/
def handle_date_change (st : TimerState) (last_date : Option Int)
    (current_date : Int) : TimerState :=
  match last_date with
  | none => st
  | some d =>
    if d ≠ current_date ∧ ¬st.timer_running then
      { st with current_band_index := -1 }
    else st

/-- `find_next_band()` (src/app.py lines 337-381): first look for an entry dated
today whose window `[start, start + duration]` contains `now` (the first one in
schedule order); otherwise the entry dated today with the smallest future start
(first such on ties).  Returns the entry together with its start instant. -/
def find_next_band (schedule : List Entry) (now : Int) : Option (Entry × Int) :=
  let current_date := dayOf now
  match schedule.find? (fun band =>
      decide (band.date = current_date) &&
      decide (combineToday now band.start ≤ now) &&
      decide (now ≤ combineToday now band.start + band.duration * 60)) with
  | some band => some (band, combineToday now band.start)
  | none =>
    schedule.foldl (fun acc band =>
      if band.date = current_date ∧ now < combineToday now band.start then
        match acc with
        | none => some (band, combineToday now band.start)
        | some (_, t) =>
          if combineToday now band.start < t then
            some (band, combineToday now band.start)
          else acc
      else acc) none

/-- One full iteration of the `timer_thread` polling loop (src/app.py lines
388-523): date-change handling, the running-timer branch, then — if no timer is
running afterwards — either activating the band whose start has arrived
(`current_band_index` set to its position, then `start_timer`), emitting a
waiting snapshot, or emitting a finished snapshot. -/
def timer_tick (st0 : TimerState) (last_date : Option Int) (now : Int) :
    TickResult :=
  let current_date := dayOf now
  let st1 := handle_date_change st0 last_date current_date
  let r := tick_timer_branch st1 now
  if r.state.timer_running then r
  else
    match find_next_band r.state.schedule now with
    | some (next_band, next_time) =>
      if next_time ≤ now then
        let i : Int := (r.state.schedule.findIdx (fun band => decide (band = next_band)) : Nat)
        let p := start_timer { r.state with current_band_index := i } now
        ⟨p.1, r.history, r.persisted, r.emits ++ p.2⟩
      else
        ⟨r.state, r.history, r.persisted,
         r.emits ++ [Emit.waiting ⟨next_band.band, next_band.start, next_band.date,
            next_time - now⟩]⟩
    | none => ⟨r.state, r.history, r.persisted, r.emits ++ [Emit.finished]⟩

example :
    tick_timer_branch
      ⟨[⟨0, "A", 600, 660, 0, 60⟩], 0, true, some 39600, some 600, some 660, some 60⟩
      39000
    = ⟨⟨[⟨0, "A", 600, 660, 0, 60⟩], 0, true, some 39600, some 600, some 660, some 60⟩,
       [], [], [Emit.playing "A" 600 3600 none]⟩ := by decide

example :
    tick_timer_branch
      ⟨[⟨0, "A", 600, 660, 0, 60⟩], 0, true, some 39600, some 600, some 660, some 60⟩
      39630
    = ⟨⟨[], -1, false, none, some 600, some 660, some 60⟩,
       [⟨"A", 0, 600, 660, 36000, 39630, 60⟩], [[]], [Emit.schedule_updated]⟩ := by
  decide

example :
    timer_tick
      ⟨[⟨0, "A", 600, 660, 0, 60⟩], -1, false, none, none, none, none⟩
      (some 0) 35400
    = ⟨⟨[⟨0, "A", 600, 660, 0, 60⟩], -1, false, none, none, none, none⟩,
       [], [], [Emit.waiting ⟨"A", 600, 0, 600⟩]⟩ := by decide

example :
    (timer_tick
      ⟨[⟨0, "A", 600, 660, 0, 60⟩], -1, false, none, none, none, none⟩
      (some 0) 36060).state
    = ⟨[⟨0, "A", 600, 660, 0, 60⟩], 0, true, some 39660, some 600, some 660, some 60⟩ := by
  decide

/-- The `remaining` value of the first playing emission of a tick, if any. -/
def emittedRemaining (r : TickResult) : Option Int :=
  r.emits.findSome? (fun em =>
    match em with
    | Emit.playing _ remaining _ _ => some remaining
    | _ => none)

/-- Helper: while a timer runs, the date-change handling never touches the state. -/
theorem handle_date_change_of_running (st : TimerState) (l : Option Int)
    (cd : Int) (h : st.timer_running = true) : handle_date_change st l cd = st := by
  cases l with
  | none => rfl
  | some d => simp [handle_date_change, h]

/-- C3 (amended): when a tick observes `now ≥ end_time` while Playing, it
(a) appends exactly one history record built from the activation snapshots,
with `actual_start = end_time - duration` and `actual_end = now` (the tick's
observation instant, not `end_time` itself), (b) removes the active entry from
the schedule, (c) persists the resulting schedule, (d) emits the
schedule-changed notification, and (e) resets the playback state (timer
stopped, `end_time` cleared, no active index). -/
theorem tick_finish_records_and_resets (st : TimerState) (current_band : Entry)
    (e now : Int)
    (hrun : st.timer_running = true)
    (hend : st.end_time = some e)
    (hband : pyGet st.schedule st.current_band_index = some current_band)
    (hnow : e ≤ now) :
    tick_timer_branch st now =
      ⟨{ st with
          schedule := pyEraseIdx st.schedule st.current_band_index
          timer_running := false
          end_time := none
          current_band_index := -1 },
       [⟨current_band.band, current_band.date,
         st.original_scheduled_start.getD current_band.start,
         st.original_scheduled_end.getD current_band.«end»,
         e - current_band.duration * 60, now,
         (now - (e - current_band.duration * 60)) / 60⟩],
       [pyEraseIdx st.schedule st.current_band_index],
       [Emit.schedule_updated]⟩ := by
  have h0 : ¬ (0 < e - now) := by omega
  simp only [tick_timer_branch, hend, hrun, if_true, h0, if_false, hband]

/-- Witness for C3's amended theorem at a concrete Playing state whose timer
elapsed 30 seconds ago. -/
theorem tick_finish_records_and_resets_witness :
    tick_timer_branch
      ⟨[⟨0, "A", 600, 660, 0, 60⟩], 0, true, some 39600, some 600, some 660, some 60⟩
      39630
    = ⟨⟨[], -1, false, none, some 600, some 660, some 60⟩,
       [⟨"A", 0, 600, 660, 36000, 39630, 60⟩], [[]], [Emit.schedule_updated]⟩ :=
  tick_finish_records_and_resets
    ⟨[⟨0, "A", 600, 660, 0, 60⟩], 0, true, some 39600, some 600, some 660, some 60⟩
    ⟨0, "A", 600, 660, 0, 60⟩ 39600 39630 (by decide) (by decide) (by decide)
    (by decide)

/-- C3 counterexample: for the same state the claim as stated — the history
record's actual end equals `end_time` — is false: the record's actual end is the
observation instant `now = 39630 ≠ 39600 = end_time`. -/
theorem tick_finish_actual_end_not_end_time :
    ((tick_timer_branch
        ⟨[⟨0, "A", 600, 660, 0, 60⟩], 0, true, some 39600, some 600, some 660, some 60⟩
        39630).history.map (fun h => h.actual_end)) = [39630]
    ∧ (∀ h ∈ (tick_timer_branch
        ⟨[⟨0, "A", 600, 660, 0, 60⟩], 0, true, some 39600, some 600, some 660, some 60⟩
        39630).history, h.actual_end ≠ 39600) := by decide

/-- C7: at a tick where the calendar date changed since the previous tick, the
date-change handling resets `current_band_index` (to `-1`) exactly when no timer
is running and changes nothing else; while a timer is running, the whole tick is
independent of the remembered previous date, so an actively playing cross-
midnight entry is neither truncated nor reset by the rollover. -/
theorem midnight_rollover_only_resets_when_idle (st : TimerState)
    (d cd now : Int) (l1 l2 : Option Int) (hne : d ≠ cd) :
    (st.timer_running = false →
      handle_date_change st (some d) cd = { st with current_band_index := -1 })
    ∧ (st.timer_running = true → handle_date_change st (some d) cd = st)
    ∧ (st.timer_running = true → timer_tick st l1 now = timer_tick st l2 now) := by
  refine ⟨?_, ?_, ?_⟩
  · intro h
    simp [handle_date_change, hne, h]
  · intro h
    exact handle_date_change_of_running st (some d) cd h
  · intro h
    simp only [timer_tick, handle_date_change_of_running st l1 _ h,
      handle_date_change_of_running st l2 _ h]

/-- Witness for C7: rollover from day 0 to day 1 with an entry playing across
midnight leaves the tick result identical whatever the remembered date was, and
an idle state gets its index reset. -/
theorem midnight_rollover_only_resets_when_idle_witness :
    ((⟨[⟨0, "A", 1410, 30, 1, 60⟩], 0, true, some 88200, some 1410, some 30,
        some 60⟩ : TimerState).timer_running = false →
      handle_date_change
        ⟨[⟨0, "A", 1410, 30, 1, 60⟩], 0, true, some 88200, some 1410, some 30, some 60⟩
        (some 0) 1
      = { (⟨[⟨0, "A", 1410, 30, 1, 60⟩], 0, true, some 88200, some 1410, some 30,
            some 60⟩ : TimerState) with current_band_index := -1 })
    ∧ ((⟨[⟨0, "A", 1410, 30, 1, 60⟩], 0, true, some 88200, some 1410, some 30,
        some 60⟩ : TimerState).timer_running = true →
      handle_date_change
        ⟨[⟨0, "A", 1410, 30, 1, 60⟩], 0, true, some 88200, some 1410, some 30, some 60⟩
        (some 0) 1
      = ⟨[⟨0, "A", 1410, 30, 1, 60⟩], 0, true, some 88200, some 1410, some 30, some 60⟩)
    ∧ ((⟨[⟨0, "A", 1410, 30, 1, 60⟩], 0, true, some 88200, some 1410, some 30,
        some 60⟩ : TimerState).timer_running = true →
      timer_tick
        ⟨[⟨0, "A", 1410, 30, 1, 60⟩], 0, true, some 88200, some 1410, some 30, some 60⟩
        (some 0) 86700
      = timer_tick
        ⟨[⟨0, "A", 1410, 30, 1, 60⟩], 0, true, some 88200, some 1410, some 30, some 60⟩
        (some 1) 86700) :=
  midnight_rollover_only_resets_when_idle
    ⟨[⟨0, "A", 1410, 30, 1, 60⟩], 0, true, some 88200, some 1410, some 30, some 60⟩
    0 1 86700 (some 0) (some 1) (by decide)

/-- C9: while Playing with `now` strictly before `end_time`, a tick leaves the
whole state (in particular `end_time` and the schedule) unchanged — so any
number of repetitions within the same second changes nothing — appends no
history record, persists nothing, and the `remaining` it emits equals
`end_time - now`, decreasing monotonically as wall-clock time advances. -/
theorem tick_playing_pure (st : TimerState) (current_band : Entry) (e : Int)
    (l : Option Int) (n n1 n2 : Int) (k : Nat)
    (hrun : st.timer_running = true)
    (hend : st.end_time = some e)
    (hband : pyGet st.schedule st.current_band_index = some current_band)
    (hn : n < e) (h1 : n1 < e) (h2 : n2 < e) (h12 : n1 ≤ n2) :
    (timer_tick st l n
      = ⟨st, [], [],
         [Emit.playing current_band.band (e - n) (current_band.duration * 60)
            (next_band_info st.schedule st.current_band_index (dayOf n) n)]⟩)
    ∧ ((fun s => (timer_tick s l n).state)^[k] st = st)
    ∧ (emittedRemaining (timer_tick st l n2) = some (e - n2)
       ∧ emittedRemaining (timer_tick st l n1) = some (e - n1)
       ∧ e - n2 ≤ e - n1) := by
  have key : ∀ m : Int, m < e →
      timer_tick st l m
        = ⟨st, [], [],
           [Emit.playing current_band.band (e - m) (current_band.duration * 60)
              (next_band_info st.schedule st.current_band_index (dayOf m) m)]⟩ := by
    intro m hm
    have hpos : 0 < e - m := by omega
    have hb : tick_timer_branch st m
        = ⟨st, [], [],
           [Emit.playing current_band.band (e - m) (current_band.duration * 60)
              (next_band_info st.schedule st.current_band_index (dayOf m) m)]⟩ := by
      simp only [tick_timer_branch, hend, hrun, if_true, hpos, hband]
    simp only [timer_tick, handle_date_change_of_running st l _ hrun, hb, hrun, if_true]
  refine ⟨key n hn, ?_, ?_⟩
  · induction k with
    | zero => rfl
    | succ k ih =>
      rw [Function.iterate_succ_apply]
      have hstep : (timer_tick st l n).state = st := by rw [key n hn]
      rw [hstep, ih]
  · refine ⟨?_, ?_, by omega⟩
    · rw [key n2 h2]
      rfl
    · rw [key n1 h1]
      rfl

/-- Witness for C9 at a concrete Playing state, three repetitions of the tick at
10:50:00, and the pair of instants 10:49:50 ≤ 10:50:00. -/
theorem tick_playing_pure_witness :
    (timer_tick
      ⟨[⟨0, "A", 600, 660, 0, 60⟩], 0, true, some 39600, some 600, some 660, some 60⟩
      (some 0) 39000
      = ⟨⟨[⟨0, "A", 600, 660, 0, 60⟩], 0, true, some 39600, some 600, some 660,
           some 60⟩,
         [], [],
         [Emit.playing "A" (39600 - 39000) (60 * 60)
            (next_band_info [⟨0, "A", 600, 660, 0, 60⟩] 0 (dayOf 39000) 39000)]⟩)
    ∧ ((fun s => (timer_tick s (some 0) 39000).state)^[3]
        ⟨[⟨0, "A", 600, 660, 0, 60⟩], 0, true, some 39600, some 600, some 660, some 60⟩
        = ⟨[⟨0, "A", 600, 660, 0, 60⟩], 0, true, some 39600, some 600, some 660,
           some 60⟩)
    ∧ (emittedRemaining (timer_tick
          ⟨[⟨0, "A", 600, 660, 0, 60⟩], 0, true, some 39600, some 600, some 660,
            some 60⟩ (some 0) 39000) = some (39600 - 39000)
       ∧ emittedRemaining (timer_tick
          ⟨[⟨0, "A", 600, 660, 0, 60⟩], 0, true, some 39600, some 600, some 660,
            some 60⟩ (some 0) 38990) = some (39600 - 38990)
       ∧ (39600 : Int) - 39000 ≤ 39600 - 38990) :=
  tick_playing_pure
    ⟨[⟨0, "A", 600, 660, 0, 60⟩], 0, true, some 39600, some 600, some 660, some 60⟩
    ⟨0, "A", 600, 660, 0, 60⟩ 39600 (some 0) 39000 38990 39000 3
    (by decide) (by decide) (by decide) (by decide) (by decide) (by decide) (by decide)

/-- C10: for a valid `current_band_index`, `start_timer` refuses to activate
while `now` is strictly before the selected entry's scheduled start (today's
date combined with its start time-of-day) — it leaves `timer_running = False`
and `end_time = None` — and when it does activate,
`end_time = max(now, scheduled_start) + duration`. -/
theorem start_timer_never_early (st : TimerState) (band : Entry) (now : Int)
    (hband : pyGet st.schedule st.current_band_index = some band)
    (hlen : st.current_band_index < (st.schedule.length : Int)) :
    (now < combineToday now band.start →
      (start_timer st now).1.timer_running = false
      ∧ (start_timer st now).1.end_time = none)
    ∧ (combineToday now band.start ≤ now →
      (start_timer st now).1.timer_running = true
      ∧ (start_timer st now).1.end_time
          = some (max now (combineToday now band.start) + band.duration * 60)) := by
  have hguard : ¬ ((st.schedule.length : Int) ≤ st.current_band_index) := by omega
  constructor
  · intro h
    simp [start_timer, hguard, hband, h]
  · intro h
    have h' : ¬ (now < combineToday now band.start) := by omega
    simp [start_timer, hguard, hband, h']

/-- Witness for C10: with the entry scheduled at 10:00 (36000 s), a start attempt
at 09:50:00 does not arm the timer, and the same hypotheses also give the
activation equation (vacuously instantiable at the same instant). -/
theorem start_timer_never_early_witness :
    ((39000 : Int) < combineToday 39000 700 →
      (start_timer
        ⟨[⟨0, "A", 700, 760, 0, 60⟩], 0, false, none, none, none, none⟩
        39000).1.timer_running = false
      ∧ (start_timer
        ⟨[⟨0, "A", 700, 760, 0, 60⟩], 0, false, none, none, none, none⟩
        39000).1.end_time = none)
    ∧ (combineToday 39000 700 ≤ 39000 →
      (start_timer
        ⟨[⟨0, "A", 700, 760, 0, 60⟩], 0, false, none, none, none, none⟩
        39000).1.timer_running = true
      ∧ (start_timer
        ⟨[⟨0, "A", 700, 760, 0, 60⟩], 0, false, none, none, none, none⟩
        39000).1.end_time
          = some (max 39000 (combineToday 39000 700) + 60 * 60)) :=
  start_timer_never_early
    ⟨[⟨0, "A", 700, 760, 0, 60⟩], 0, false, none, none, none, none⟩
    ⟨0, "A", 700, 760, 0, 60⟩ 39000 (by decide) (by decide)

/-- Outcome category of the `adjust_time` admin action: success, the
minimum-duration rejection, the next-band-overlap rejection (carrying the
`max_possible` minutes stated in the message), the "no timer running" response,
or an uncaught server error (state unchanged). -/
inductive AdjustResponse where
  | ok (adjust_minutes : Int)
  | duration_floor
  | next_band_overlap (max_possible : Int)
  | no_timer
  | server_error
deriving DecidableEq

/-- Result of the `adjust_time` action: the new global state, the schedule
snapshots persisted, the emissions, and the response. -/
structure AdjustResult where
  state : TimerState
  persisted : List (List Entry)
  emits : List Emit
  response : AdjustResponse
deriving DecidableEq

/-- The scan for the next band on the same day used by `adjust_time`
(src/app.py lines 1024-1031): walk forward from the active entry, stop at the
first entry with the same `date`; stop with nothing once a later `date` is
seen (the schedule is kept sorted). -/
def find_next_same_day : List Entry → Int → Option Entry
  | [], _ => none
  | band :: rest, current_date =>
    if band.date = current_date then some band
    else if current_date < band.date then none
    else find_next_same_day rest current_date

/-- The `adjust_time` admin action (src/app.py lines 1008-1104).  Guarded by
`timer_running and current_band_index >= 0 and adjust_minutes != 0`.  A negative
delta is rejected when `duration + delta < 1`; a positive delta is rejected when
`current_start + duration + delta` would pass the next same-day band's start, the
message stating `max_possible = (next_start - current_start) - duration`.  On
success `end_time` shifts by the delta, the active entry's `duration` is updated
and its `end`/`end_date` recomputed from its unchanged start, the schedule is
persisted and a playing update is emitted immediately.  (All date arithmetic in
minutes: `current_start = date * 1440 + start`.) -/
def adjust_time (st : TimerState) (adjust_minutes : Int) (now : Int) :
    AdjustResult :=
  if st.timer_running ∧ 0 ≤ st.current_band_index ∧ adjust_minutes ≠ 0 then
    match pyGet st.schedule st.current_band_index, st.end_time with
    | some current_band, some e =>
      let current_date := current_band.date
      if adjust_minutes < 0 ∧ current_band.duration + adjust_minutes < 1 then
        ⟨st, [], [], AdjustResponse.duration_floor⟩
      else
        let overlap_check :=
          if 0 < adjust_minutes then
            match find_next_same_day
                (st.schedule.drop (st.current_band_index + 1).toNat) current_date with
            | some next_band =>
              let current_start := current_band.date * 1440 + current_band.start
              let new_end := current_start + current_band.duration + adjust_minutes
              let next_start := next_band.date * 1440 + next_band.start
              if next_start < new_end then
                some (AdjustResponse.next_band_overlap
                  ((next_start - current_start) - current_band.duration))
              else none
            | none => none
          else none
        match overlap_check with
        | some resp => ⟨st, [], [], resp⟩
        | none =>
          let e' := e + adjust_minutes * 60
          let new_duration := current_band.duration + adjust_minutes
          let total := current_band.date * 1440 + current_band.start + new_duration
          let new_entry := { current_band with
            duration := new_duration
            «end» := total % 1440
            end_date := total / 1440 }
          let schedule' := pySet st.schedule st.current_band_index new_entry
          let st' := { st with schedule := schedule', end_time := some e' }
          ⟨st', [schedule'],
           [Emit.playing new_entry.band (e' - now) (new_duration * 60)
              (next_band_info schedule' st.current_band_index current_date now)],
           AdjustResponse.ok adjust_minutes⟩
    | _, _ => ⟨st, [], [], AdjustResponse.server_error⟩
  else ⟨st, [], [], AdjustResponse.no_timer⟩

example :
    (adjust_time
      ⟨[⟨0, "A", 1200, 1260, 0, 60⟩, ⟨0, "B", 1280, 1340, 0, 60⟩], 0, true,
       some 75600, some 1200, some 1260, some 60⟩ 30 76000).response
    = AdjustResponse.next_band_overlap 20 := by decide

example :
    (adjust_time
      ⟨[⟨0, "A", 1200, 1260, 0, 60⟩, ⟨0, "B", 1280, 1340, 0, 60⟩], 0, true,
       some 75600, some 1200, some 1260, some 60⟩ 15 76000)
    = ⟨⟨[⟨0, "A", 1200, 1275, 0, 75⟩, ⟨0, "B", 1280, 1340, 0, 60⟩], 0, true,
        some 76500, some 1200, some 1260, some 60⟩,
       [[⟨0, "A", 1200, 1275, 0, 75⟩, ⟨0, "B", 1280, 1340, 0, 60⟩]],
       [Emit.playing "A" 500 4500 (some ⟨"B", 1280, 0, 76800 - 76000⟩)],
       AdjustResponse.ok 15⟩ := by decide

/-- Helper: a successful nonnegative Python index is strictly below the length. -/
theorem pyGet_lt_length (xs : List Entry) (i : Int) (b : Entry) (h0 : 0 ≤ i)
    (h : pyGet xs i = some b) : i < (xs.length : Int) := by
  simp only [pyGet, if_pos h0] at h
  rcases List.get?_eq_some.1 h with ⟨hlt, _⟩
  omega

/-- Helper: reading back a Python item assignment at the same nonnegative index. -/
theorem pyGet_pySet_self (xs : List Entry) (i : Int) (x : Entry)
    (h0 : 0 ≤ i) (h1 : i < (xs.length : Int)) : pyGet (pySet xs i x) i = some x := by
  have hlt : i.toNat < xs.length := by omega
  simp only [pyGet, pySet, if_pos h0]
  rw [List.get?_set_eq_of_lt _ hlt]

/-- C5: while Playing, a positive adjustment is rejected exactly when the
extended end would pass the start of the next same-day entry, and the rejection
carries `max_possible = (next_start - current_start) - duration`; otherwise the
adjustment succeeds, shifting `end_time` by `delta` minutes and moving the
active entry's duration and (absolute) end by `delta`. -/
theorem adjust_positive_next_band_bound (st : TimerState)
    (current_band next_band : Entry) (delta e now : Int)
    (hrun : st.timer_running = true)
    (hidx : 0 ≤ st.current_band_index)
    (hband : pyGet st.schedule st.current_band_index = some current_band)
    (hend : st.end_time = some e)
    (hdelta : 0 < delta)
    (hnext : find_next_same_day
        (st.schedule.drop (st.current_band_index + 1).toNat) current_band.date
      = some next_band)
    (hwf : current_band.end_date * 1440 + current_band.«end»
        = current_band.date * 1440 + current_band.start + current_band.duration) :
    ((adjust_time st delta now).response
        = AdjustResponse.next_band_overlap
            ((next_band.date * 1440 + next_band.start
              - (current_band.date * 1440 + current_band.start))
             - current_band.duration)
      ↔ next_band.date * 1440 + next_band.start
          < current_band.date * 1440 + current_band.start
            + current_band.duration + delta)
    ∧ (current_band.date * 1440 + current_band.start + current_band.duration + delta
          ≤ next_band.date * 1440 + next_band.start →
        (adjust_time st delta now).response = AdjustResponse.ok delta
        ∧ (adjust_time st delta now).state.end_time = some (e + delta * 60)
        ∧ pyGet (adjust_time st delta now).state.schedule st.current_band_index
            = some { current_band with
                duration := current_band.duration + delta
                «end» := (current_band.date * 1440 + current_band.start
                    + (current_band.duration + delta)) % 1440
                end_date := (current_band.date * 1440 + current_band.start
                    + (current_band.duration + delta)) / 1440 }
        ∧ ((current_band.date * 1440 + current_band.start
              + (current_band.duration + delta)) / 1440) * 1440
            + ((current_band.date * 1440 + current_band.start
              + (current_band.duration + delta)) % 1440)
          = (current_band.end_date * 1440 + current_band.«end») + delta) := by
  have hguard : st.timer_running = true ∧ 0 ≤ st.current_band_index ∧ delta ≠ 0 :=
    ⟨hrun, hidx, by omega⟩
  have hfloor : ¬ (delta < 0 ∧ current_band.duration + delta < 1) := by omega
  by_cases hc : next_band.date * 1440 + next_band.start
      < current_band.date * 1440 + current_band.start + current_band.duration + delta
  · have hres : adjust_time st delta now
        = ⟨st, [], [],
           AdjustResponse.next_band_overlap
             ((next_band.date * 1440 + next_band.start
               - (current_band.date * 1440 + current_band.start))
              - current_band.duration)⟩ := by
      have hdne : delta ≠ 0 := by omega
      simp only [adjust_time, hguard, and_self, if_true, hband, hend, hfloor,
        if_false, hdelta, hnext, hc, if_true]
      rw [if_pos (⟨trivial, trivial, hdne⟩ : True ∧ True ∧ delta ≠ 0)]
    rw [hres]
    constructor
    · simp [hc]
    · intro h
      omega
  · have hres : adjust_time st delta now
        = ⟨{ st with
              schedule := pySet st.schedule st.current_band_index
                { current_band with
                    duration := current_band.duration + delta
                    «end» := (current_band.date * 1440 + current_band.start
                        + (current_band.duration + delta)) % 1440
                    end_date := (current_band.date * 1440 + current_band.start
                        + (current_band.duration + delta)) / 1440 }
              end_time := some (e + delta * 60) },
           [pySet st.schedule st.current_band_index
              { current_band with
                  duration := current_band.duration + delta
                  «end» := (current_band.date * 1440 + current_band.start
                      + (current_band.duration + delta)) % 1440
                  end_date := (current_band.date * 1440 + current_band.start
                      + (current_band.duration + delta)) / 1440 }],
           [Emit.playing current_band.band (e + delta * 60 - now)
              ((current_band.duration + delta) * 60)
              (next_band_info
                (pySet st.schedule st.current_band_index
                  { current_band with
                      duration := current_band.duration + delta
                      «end» := (current_band.date * 1440 + current_band.start
                          + (current_band.duration + delta)) % 1440
                      end_date := (current_band.date * 1440 + current_band.start
                          + (current_band.duration + delta)) / 1440 })
                st.current_band_index current_band.date now)],
           AdjustResponse.ok delta⟩ := by
      have hdne : delta ≠ 0 := by omega
      simp only [adjust_time, hguard, and_self, if_true, hband, hend, hfloor,
        if_false, hdelta, hnext, hc]
      rw [if_pos (⟨trivial, trivial, hdne⟩ : True ∧ True ∧ delta ≠ 0)]
    rw [hres]
    constructor
    · simp [hc]
    · intro h
      refine ⟨rfl, rfl, ?_, ?_⟩
      · exact pyGet_pySet_self _ _ _ hidx
          (pyGet_lt_length st.schedule st.current_band_index current_band hidx hband)
      · have hdm := Int.ediv_add_emod
          (current_band.date * 1440 + current_band.start
            + (current_band.duration + delta)) 1440
        omega

/-- Witness for C5: active entry 20:00-21:00, next entry at 21:20 the same day;
`adjust(+30)` is rejected with max-available 20, `adjust(+15)` succeeds and
shifts `end_time` (and the entry's absolute end) by 15 minutes. -/
theorem adjust_positive_next_band_bound_witness :
    (adjust_time
      ⟨[⟨0, "A", 1200, 1260, 0, 60⟩, ⟨0, "B", 1280, 1340, 0, 60⟩], 0, true,
       some 75600, some 1200, some 1260, some 60⟩ 30 76000).response
      = AdjustResponse.next_band_overlap 20
    ∧ (adjust_time
      ⟨[⟨0, "A", 1200, 1260, 0, 60⟩, ⟨0, "B", 1280, 1340, 0, 60⟩], 0, true,
       some 75600, some 1200, some 1260, some 60⟩ 15 76000).response
      = AdjustResponse.ok 15
    ∧ (adjust_time
      ⟨[⟨0, "A", 1200, 1260, 0, 60⟩, ⟨0, "B", 1280, 1340, 0, 60⟩], 0, true,
       some 75600, some 1200, some 1260, some 60⟩ 15 76000).state.end_time
      = some (75600 + 15 * 60)
    ∧ pyGet (adjust_time
      ⟨[⟨0, "A", 1200, 1260, 0, 60⟩, ⟨0, "B", 1280, 1340, 0, 60⟩], 0, true,
       some 75600, some 1200, some 1260, some 60⟩ 15 76000).state.schedule 0
      = some ⟨0, "A", 1200, 1275, 0, 75⟩ := by
  have h30 := adjust_positive_next_band_bound
    ⟨[⟨0, "A", 1200, 1260, 0, 60⟩, ⟨0, "B", 1280, 1340, 0, 60⟩], 0, true,
     some 75600, some 1200, some 1260, some 60⟩
    ⟨0, "A", 1200, 1260, 0, 60⟩ ⟨0, "B", 1280, 1340, 0, 60⟩ 30 75600 76000
    (by decide) (by decide) (by decide) (by decide) (by decide) (by decide) (by decide)
  have h15 := adjust_positive_next_band_bound
    ⟨[⟨0, "A", 1200, 1260, 0, 60⟩, ⟨0, "B", 1280, 1340, 0, 60⟩], 0, true,
     some 75600, some 1200, some 1260, some 60⟩
    ⟨0, "A", 1200, 1260, 0, 60⟩ ⟨0, "B", 1280, 1340, 0, 60⟩ 15 75600 76000
    (by decide) (by decide) (by decide) (by decide) (by decide) (by decide) (by decide)
  have hsucc := h15.2 (by decide)
  refine ⟨?_, hsucc.1, hsucc.2.1, ?_⟩
  · exact h30.1.mpr (by decide)
  · exact hsucc.2.2.1

/-- C6: while Playing, a negative adjustment is rejected exactly when
`duration + delta < 1`, and any such rejection leaves the whole state (the
active entry's duration/end/end_date, the schedule, and `end_time`) unchanged,
persisting and emitting nothing. -/
theorem adjust_negative_duration_floor (st : TimerState)
    (current_band : Entry) (delta e now : Int)
    (hrun : st.timer_running = true)
    (hidx : 0 ≤ st.current_band_index)
    (hband : pyGet st.schedule st.current_band_index = some current_band)
    (hend : st.end_time = some e)
    (hdelta : delta < 0) :
    ((adjust_time st delta now).response = AdjustResponse.duration_floor
      ↔ current_band.duration + delta < 1)
    ∧ (current_band.duration + delta < 1 →
        adjust_time st delta now = ⟨st, [], [], AdjustResponse.duration_floor⟩) := by
  have hdne : delta ≠ 0 := by omega
  have hnotpos : ¬ (0 < delta) := by omega
  by_cases hfl : current_band.duration + delta < 1
  · have hres : adjust_time st delta now = ⟨st, [], [], AdjustResponse.duration_floor⟩ := by
      have hcond : delta < 0 ∧ current_band.duration + delta < 1 := ⟨hdelta, hfl⟩
      simp only [adjust_time, hband, hend, hcond, and_self, if_true]
      rw [if_pos (⟨hrun, hidx, hdne⟩ : st.timer_running = true ∧ 0 ≤ st.current_band_index ∧ delta ≠ 0)]
    rw [hres]
    exact ⟨by simp [hfl], fun _ => rfl⟩
  · have hcond : ¬ (delta < 0 ∧ current_band.duration + delta < 1) := by omega
    have hres : (adjust_time st delta now).response = AdjustResponse.ok delta := by
      simp only [adjust_time, hband, hend, hcond, if_false, hnotpos]
      rw [if_pos (⟨hrun, hidx, hdne⟩ : st.timer_running = true ∧ 0 ≤ st.current_band_index ∧ delta ≠ 0)]
    constructor
    · rw [hres]
      simp [hfl]
    · intro h
      omega

/-- Witness for C6: a 60-minute active entry, `adjust(-60)` would leave less
than one minute and is rejected with the state unchanged. -/
theorem adjust_negative_duration_floor_witness :
    ((adjust_time
      ⟨[⟨0, "A", 1200, 1260, 0, 60⟩], 0, true, some 75600, some 1200, some 1260,
        some 60⟩ (-60) 74000).response = AdjustResponse.duration_floor
      ↔ (60 : Int) + (-60) < 1)
    ∧ ((60 : Int) + (-60) < 1 →
        adjust_time
          ⟨[⟨0, "A", 1200, 1260, 0, 60⟩], 0, true, some 75600, some 1200, some 1260,
            some 60⟩ (-60) 74000
        = ⟨⟨[⟨0, "A", 1200, 1260, 0, 60⟩], 0, true, some 75600, some 1200, some 1260,
            some 60⟩, [], [], AdjustResponse.duration_floor⟩) :=
  adjust_negative_duration_floor
    ⟨[⟨0, "A", 1200, 1260, 0, 60⟩], 0, true, some 75600, some 1200, some 1260, some 60⟩
    ⟨0, "A", 1200, 1260, 0, 60⟩ (-60) 75600 74000
    (by decide) (by decide) (by decide) (by decide) (by decide)

/-- Stable descending insertion for index lists (`indices.sort(reverse=True)`). -/
def insertDescInt (i : Int) : List Int → List Int
  | [] => [i]
  | x :: xs => if i ≤ x then x :: insertDescInt i xs else i :: x :: xs

/-- `indices.sort(reverse=True)` of the delete action. -/
def sortDescInt (l : List Int) : List Int :=
  l.foldl (fun acc i => insertDescInt i acc) []

/-- The admin `delete` action (src/app.py lines 922-947): the selected positions
are sorted descending and popped one by one (skipping out-of-range values), the
schedule is persisted, and the timer is reset to Idle only when afterwards
`timer_running` holds and `current_band_index >= len(schedule)`.  Returns the
new state and the persisted snapshots. -/
def admin_delete (st : TimerState) (selected : List Int) :
    TimerState × List (List Entry) :=
  let indices := sortDescInt selected
  let schedule' := indices.foldl
    (fun sch idx =>
      if 0 ≤ idx ∧ idx < (sch.length : Int) then pyEraseIdx sch idx else sch)
    st.schedule
  if st.timer_running ∧ (schedule'.length : Int) ≤ st.current_band_index then
    ({ st with
        schedule := schedule'
        timer_running := false
        end_time := none
        current_band_index := -1 },
     [schedule'])
  else ({ st with schedule := schedule' }, [schedule'])

/-- C8 (code bug): deleting the position of the currently Playing entry does NOT
reset the playback state whenever enough entries remain for the stale index to
stay in range.  Here entry "A" at position 0 is playing; deleting position 0
leaves `timer_running = true`, `end_time` armed and `current_band_index = 0` —
now silently pointing at the unrelated entry "B" — although the source's own
comment and log message ("Currently playing band was deleted - timer stopped")
say the timer must stop.  Deleting both entries does trigger the reset, showing
the guard `current_band_index >= len(schedule)` is only a range check, not an
"active entry was deleted" check. -/
theorem admin_delete_active_entry_keeps_timer :
    (admin_delete
      ⟨[⟨0, "A", 600, 660, 0, 60⟩, ⟨0, "B", 720, 780, 0, 60⟩], 0, true, some 39600,
       some 600, some 660, some 60⟩ [0]).1
      = ⟨[⟨0, "B", 720, 780, 0, 60⟩], 0, true, some 39600, some 600, some 660,
         some 60⟩
    ∧ (admin_delete
      ⟨[⟨0, "A", 600, 660, 0, 60⟩, ⟨0, "B", 720, 780, 0, 60⟩], 0, true, some 39600,
       some 600, some 660, some 60⟩ [0, 1]).1
      = ⟨[], -1, false, none, some 600, some 660, some 60⟩ := by decide
